import Mathlib

/-!
# Verification of the HR-Recruiting-Assistant pipeline core

Shallow embedding of `src/recruitment_assistant/agents/crew.py`:
the data model, the four pipeline stages (research, evaluate, recommend,
outreach drafting), risk assessment, and the `RecruitmentCrew` orchestrator
state machine.

Modelling conventions:
* Python `float` scores are embedded as exact rationals (`ℚ`);
* wall-clock timestamp fields (`created_at`, `sourced_at`, `evaluated_at`,
  `ranked_at`) and the random `draft_id` are metadata irrelevant to every
  verified property and are omitted from the records;
* `hashlib.md5` is implemented in full (RFC 1321) over UTF-8 byte lists;
* Python's truthiness idiom `x or fallback` on lists is modelled by
  `pyOrList`; Python's slice `pool[:limit]` (including negative `limit`)
  by `pySliceTo`;
* mutation of `self` is modelled by explicit state passing on `CrewState`;
  exceptions by `Except PyError`; the `AgentTracer.trace` context manager
  by `traceExc`, and possible exogenous failures inside a stage body
  (the only way the pure stage computations can fail at run time) by
  explicit `StageFaults` parameters;
* only warning-level log events are tracked (`LogEvent`); info-level trace
  events carry no information used by any property.
-/

namespace HRCrew

/-! ## UTF-8 encoding (Python `str.encode("utf-8")`) -/

/-- UTF-8 encode one code point, as Python's `str.encode("utf-8")` does. -/
def utf8EncodeChar (c : Char) : List Nat :=
  let n := c.toNat
  if n < 128 then [n]
  else if n < 2048 then [192 + n / 64, 128 + n % 64]
  else if n < 65536 then [224 + n / 4096, 128 + (n / 64) % 64, 128 + n % 64]
  else [240 + n / 262144, 128 + (n / 4096) % 64, 128 + (n / 64) % 64, 128 + n % 64]

/-- UTF-8 encode a string into its byte sequence. -/
def utf8Encode (s : String) : List Nat :=
  s.data.foldr (fun c acc => utf8EncodeChar c ++ acc) []

/-! ## MD5 (RFC 1321), as used by `hashlib.md5(...).hexdigest()` -/

/-- Bitwise complement on 32-bit words represented as `Nat`. -/
def u32not (x : Nat) : Nat := Nat.xor x 4294967295

/-- Left rotation of a 32-bit word. -/
def rotl32 (x s : Nat) : Nat :=
  (Nat.lor (Nat.shiftLeft x s) (Nat.shiftRight x (32 - s))) % 4294967296

/-- The 64 MD5 sine-derived constants. -/
def md5K : List Nat :=
  [0xd76aa478, 0xe8c7b756, 0x242070db, 0xc1bdceee,
   0xf57c0faf, 0x4787c62a, 0xa8304613, 0xfd469501,
   0x698098d8, 0x8b44f7af, 0xffff5bb1, 0x895cd7be,
   0x6b901122, 0xfd987193, 0xa679438e, 0x49b40821,
   0xf61e2562, 0xc040b340, 0x265e5a51, 0xe9b6c7aa,
   0xd62f105d, 0x02441453, 0xd8a1e681, 0xe7d3fbc8,
   0x21e1cde6, 0xc33707d6, 0xf4d50d87, 0x455a14ed,
   0xa9e3e905, 0xfcefa3f8, 0x676f02d9, 0x8d2a4c8a,
   0xfffa3942, 0x8771f681, 0x6d9d6122, 0xfde5380c,
   0xa4beea44, 0x4bdecfa9, 0xf6bb4b60, 0xbebfbc70,
   0x289b7ec6, 0xeaa127fa, 0xd4ef3085, 0x04881d05,
   0xd9d4d039, 0xe6db99e5, 0x1fa27cf8, 0xc4ac5665,
   0xf4292244, 0x432aff97, 0xab9423a7, 0xfc93a039,
   0x655b59c3, 0x8f0ccc92, 0xffeff47d, 0x85845dd1,
   0x6fa87e4f, 0xfe2ce6e0, 0xa3014314, 0x4e0811a1,
   0xf7537e82, 0xbd3af235, 0x2ad7d2bb, 0xeb86d391]

/-- The 64 MD5 per-round left-rotation amounts. -/
def md5S : List Nat :=
  [7, 12, 17, 22, 7, 12, 17, 22, 7, 12, 17, 22, 7, 12, 17, 22,
   5, 9, 14, 20, 5, 9, 14, 20, 5, 9, 14, 20, 5, 9, 14, 20,
   4, 11, 16, 23, 4, 11, 16, 23, 4, 11, 16, 23, 4, 11, 16, 23,
   6, 10, 15, 21, 6, 10, 15, 21, 6, 10, 15, 21, 6, 10, 15, 21]

/-- One MD5 round: `m` is the 16-word message block, `st` the `(a,b,c,d)`
register state, `i` the round index. -/
def md5Round (m : List Nat) (st : Nat × Nat × Nat × Nat) (i : Nat) :
    Nat × Nat × Nat × Nat :=
  let (a, b, c, d) := st
  let fg : Nat × Nat :=
    if i < 16 then (Nat.lor (Nat.land b c) (Nat.land (u32not b) d), i)
    else if i < 32 then (Nat.lor (Nat.land d b) (Nat.land (u32not d) c), (5 * i + 1) % 16)
    else if i < 48 then (Nat.xor b (Nat.xor c d), (3 * i + 5) % 16)
    else (Nat.xor c (Nat.lor b (u32not d)), (7 * i) % 16)
  let f := (fg.1 + a + md5K.getD i 0 + m.getD fg.2 0) % 4294967296
  (d, (b + rotl32 f (md5S.getD i 0)) % 4294967296, b, c)

/-- Process one 64-byte chunk, updating the four running registers. -/
def md5Chunk (st : Nat × Nat × Nat × Nat) (chunk : List Nat) :
    Nat × Nat × Nat × Nat :=
  let m := (List.range 16).map fun g =>
    chunk.getD (4 * g) 0 + 256 * chunk.getD (4 * g + 1) 0 +
      65536 * chunk.getD (4 * g + 2) 0 + 16777216 * chunk.getD (4 * g + 3) 0
  let (a0, b0, c0, d0) := st
  let r := (List.range 64).foldl (md5Round m) (a0, b0, c0, d0)
  ((a0 + r.1) % 4294967296, (b0 + r.2.1) % 4294967296,
   (c0 + r.2.2.1) % 4294967296, (d0 + r.2.2.2) % 4294967296)

/-- The eight little-endian bytes of the 64-bit message bit length. -/
def bytesLE8 (n : Nat) : List Nat :=
  (List.range 8).map fun i => (Nat.shiftRight n (8 * i)) % 256

/-- MD5 padding: a `0x80` byte, zeros to 56 mod 64, then the bit length. -/
def md5Pad (msg : List Nat) : List Nat :=
  let z := (120 - ((msg.length + 1) % 64)) % 64
  msg ++ [128] ++ List.replicate z 0 ++ bytesLE8 (8 * msg.length)

/-- Split a byte list into 64-byte chunks. -/
def chunks64 (l : List Nat) : List (List Nat) :=
  if h : l = [] then []
  else l.take 64 :: chunks64 (l.drop 64)
termination_by l.length
decreasing_by
  simp only [List.length_drop]
  exact Nat.sub_lt (List.length_pos.mpr h) (by norm_num)

/-- A lowercase hexadecimal digit. -/
def hexChar (n : Nat) : Char :=
  if n < 10 then Char.ofNat (48 + n) else Char.ofNat (87 + n)

/-- Two lowercase hex characters of a byte. -/
def byteHexChars (b : Nat) : List Char := [hexChar (b / 16), hexChar (b % 16)]

/-- Hex rendering of a 32-bit word, little-endian byte order. -/
def u32leHexChars (w : Nat) : List Char :=
  byteHexChars (w % 256) ++ byteHexChars ((Nat.shiftRight w 8) % 256) ++
    byteHexChars ((Nat.shiftRight w 16) % 256) ++ byteHexChars ((Nat.shiftRight w 24) % 256)

/-- `hashlib.md5(bytes).hexdigest()`: the 32-character lowercase digest. -/
def md5Hex (msg : List Nat) : String :=
  let st := (chunks64 (md5Pad msg)).foldl md5Chunk
    (1732584193, 4023233417, 2562383102, 271733878)
  String.mk (u32leHexChars st.1 ++ u32leHexChars st.2.1 ++
    u32leHexChars st.2.2.1 ++ u32leHexChars st.2.2.2)

/-- `_stable_candidate_id` (crew.py:25-29): deterministic candidate
identifier derived from the candidate name and job title. -/
def stableCandidateId (name : String) (job_title : String) : String :=
  let key := name ++ "|" ++ job_title
  let digest := md5Hex (utf8Encode key)
  "CAN-" ++ (digest.take 8).toUpper

/-! ## Data model (crew.py:36-172)

Scores are exact rationals; timestamp fields are omitted (wall-clock
metadata never used by the logic). -/

/-- `JobDescriptionModel` (crew.py:36-42). -/
structure JobDescriptionModel where
  title : String
  content : String
  classification : String := "Tier-2"
deriving DecidableEq, Repr

/-- `CandidateSeed` (crew.py:45-55). -/
structure CandidateSeed where
  candidate_id : String
  name : String
  role : String
  score : ℚ
  rationale : String
  tags : List String
  data_sources : List String
deriving DecidableEq, Repr

/-- `EvaluationResult` (crew.py:58-70). -/
structure EvaluationResult where
  candidate_id : String
  candidate_name : String
  role : String
  score : ℚ
  rationale : String
  bias_flags : List String
  comments : String
  tags : List String
  profile_url : String
deriving DecidableEq, Repr

/-- `RankedCandidate` (crew.py:73-87). -/
structure RankedCandidate where
  candidate_id : String
  name : String
  role : String
  final_score : ℚ
  rationale : String
  tags : List String
  bias_flags : List String
  rank_label : String
  recommendation : String
  profile_url : String
  notes : Option String := none
deriving DecidableEq, Repr

/-- `OutreachTemplate` (crew.py:90-98). -/
structure OutreachTemplate where
  tone : String := "professional"
  cta : String := "Let\x27s schedule a time to chat"
  compliance_notes : String := "GDPR-compliant; transparent opt-out included."
  eu_ai_statement : String :=
    "High-risk HR workflow per EU AI Act; human oversight and record keeping enforced."
deriving DecidableEq, Repr

/-- `OutreachDraft` (crew.py:101-109); the random `draft_id` and the
creation timestamp are omitted. -/
structure OutreachDraft where
  campaign_id : String
  candidate_id : String
  message : String
  template : OutreachTemplate
deriving DecidableEq, Repr

/-- `RankingPolicy` (crew.py:112-118). -/
structure RankingPolicy where
  name : String := "balanced"
  diversity_bonus : ℚ := 5 / 100
  bias_tolerance : ℚ := 7 / 10
  respect_bias_flags : Bool := true
deriving DecidableEq, Repr

/-- `CompliancePolicy` (crew.py:121-127). -/
structure CompliancePolicy where
  gdpr_note : String := "Personal data processed only for recruitment; subject rights respected."
  eu_ai_act_category : String := "High-Risk HR"
  retention_days : Nat := 30
  logging_level : String := "INFO"
deriving DecidableEq, Repr

/-- `RiskAssessment` (crew.py:130-136). -/
structure RiskAssessment where
  score : ℚ
  bias_flags : Nat
  level : String
deriving DecidableEq, Repr

/-- One record of the candidate-source catalog (`BASE_PROFILES` entries). -/
structure Profile where
  name : String
  role : String
  score : ℚ
  tags : List String
  data_sources : List String
  profile_url : String
deriving DecidableEq, Repr

/-- `BASE_PROFILES` (crew.py:139-172). -/
def BASE_PROFILES : List Profile :=
  [{ name := "Alex Dev", role := "Backend Engineer", score := 60 / 100,
     tags := ["Data Deficient", "Manual Review Required"],
     data_sources := ["Serper.dev", "GitHub"],
     profile_url := "https://talent.example.com/alex-dev" },
   { name := "Marina Byte", role := "Full Stack Engineer", score := 72 / 100,
     tags := ["High Confidence"],
     data_sources := ["Serper.dev", "Portfolio"],
     profile_url := "https://talent.example.com/marina-byte" },
   { name := "Kai Ops", role := "DevOps Engineer", score := 68 / 100,
     tags := ["Manual Review Required"],
     data_sources := ["GitHub", "Browserless.io"],
     profile_url := "https://talent.example.com/kai-ops" },
   { name := "Nia Vector", role := "Platform Architect", score := 64 / 100,
     tags := ["Leadership Potential"],
     data_sources := ["LinkedIn", "Public Portfolio"],
     profile_url := "https://talent.example.com/nia-vector" }]

/-! ## Python idioms -/

/-- Python `x or fallback` where `x` is an optional list argument:
`None` and the empty list are falsy and select the fallback. -/
def pyOrList (x : Option (List α)) (fallback : List α) : List α :=
  match x with
  | some l => if l.isEmpty then fallback else l
  | none => fallback

/-- Python slice `l[:stop]` for an `int` bound: a nonnegative `stop` takes
the first `stop` elements; a negative `stop` drops the last `-stop`. -/
def pySliceTo (l : List α) (stop : Int) : List α :=
  if 0 ≤ stop then l.take stop.toNat else l.take (l.length - (-stop).toNat)

/-! ## Research stage (`ResearcherAgent.research`, crew.py:235-259) -/

/-- The seed built for one catalog profile: deterministic id, content-bonus
score capped at 0.95, templated rationale. -/
def seedOfProfile (jd : JobDescriptionModel) (p : Profile) : CandidateSeed :=
  { candidate_id := stableCandidateId p.name jd.title
    name := p.name
    role := p.role
    score := min (95 / 100) (p.score + (jd.content.length : ℚ) / 400)
    rationale := p.name ++ " shows a " ++ p.role ++ " signal that aligns with " ++
      jd.title ++ "."
    tags := p.tags
    data_sources := p.data_sources }

/-- `research(job_description, limit)`: seeds for the slice
`candidate_pool[:limit]` in source order. -/
def research (pool : List Profile) (jd : JobDescriptionModel) (limit : Int) :
    List CandidateSeed :=
  (pySliceTo pool limit).map (seedOfProfile jd)

/-! ## Evaluation stage (`EvaluatorAgent`, crew.py:262-312) -/

/-- The crew-default bias-threshold table `{"default": 0.65}`. -/
def defaultBiasThresholds : List (String × ℚ) := [("default", 65 / 100)]

/-- `self._bias_thresholds.get(seed.role, self._bias_thresholds["default"])`.
(When no `"default"` key exists Python raises `KeyError`; the constructor
always supplies one, so the final `getD 0` fallback is never relevant.) -/
def thresholdFor (thresholds : List (String × ℚ)) (role : String) : ℚ :=
  (thresholds.lookup role).getD ((thresholds.lookup "default").getD 0)

/-- `_derive_bias_flags` (crew.py:275-285): flags emitted in fixed order. -/
def deriveBiasFlags (thresholds : List (String × ℚ)) (seed : CandidateSeed) :
    List String :=
  (if "Data Deficient" ∈ seed.tags then ["Data Deficient"] else []) ++
  (if "Manual Review Required" ∈ seed.tags then ["Manual Review Required"] else []) ++
  (if seed.score < thresholdFor thresholds seed.role then ["Bias Warning"] else [])

/-- Evaluation of a single seed (loop body of `evaluate`, crew.py:293-311). -/
def evaluateSeed (thresholds : List (String × ℚ)) (seed : CandidateSeed) :
    EvaluationResult :=
  { candidate_id := seed.candidate_id
    candidate_name := seed.name
    role := seed.role
    score := min 1 (seed.score + 1 / 10)
    rationale := seed.rationale
    bias_flags := deriveBiasFlags thresholds seed
    comments := "Evaluated " ++ seed.name ++ "; " ++ toString seed.tags.length ++
      " tag(s) observed."
    tags := seed.tags
    profile_url := "https://talent.example.com/" ++ (seed.name.toLower.replace " " "-") }

/-- `evaluate(seeds)` (crew.py:287-312): one result per seed, same order. -/
def evaluateSeeds (thresholds : List (String × ℚ)) (seeds : List CandidateSeed) :
    List EvaluationResult :=
  seeds.map (evaluateSeed thresholds)

/-! ## Ranking stage (`RecommenderAgent.recommend`, crew.py:323-358) -/

/-- Descending raw-score order used as the sort key:
`sorted(evaluations, key=lambda entry: entry.score, reverse=True)`. -/
def scoreGE (a b : EvaluationResult) : Prop := b.score ≤ a.score

instance : DecidableRel scoreGE :=
  fun a b => (inferInstance : Decidable (b.score ≤ a.score))

instance : IsTotal EvaluationResult scoreGE :=
  ⟨fun a b => (le_total b.score a.score).imp id id⟩

instance : IsTrans EvaluationResult scoreGE :=
  ⟨fun _ _ _ hab hbc => le_trans hbc hab⟩

/-- Python's `sorted(..., key=score, reverse=True)` is the stable descending
sort by raw score; stable sorts with the same comparator agree as functions,
so it is embedded as insertion sort under `scoreGE`. -/
def sortedEvaluations (evaluations : List EvaluationResult) : List EvaluationResult :=
  evaluations.insertionSort scoreGE

/-- The diversity boost applied at ranking time (crew.py:332-336). -/
def diversityBoost (policy : RankingPolicy) (e : EvaluationResult) : ℚ :=
  if e.tags.any (fun tag => tag = "Manual Review Required" || tag = "Data Deficient")
  then policy.diversity_bonus else 0

/-- Two-decimal rendering of a score used inside the recommendation string
(Python `f"{x:.2f}"`; rendering detail irrelevant to every property). -/
def formatScore2 (q : ℚ) : String :=
  let cents : Int := round (q * 100)
  toString (cents / 100) ++ "." ++
    (if (cents % 100).natAbs < 10 then "0" else "") ++ toString (cents % 100).natAbs

/-- The ranked record built for the evaluation at 1-based `position`
(loop body of `recommend`, crew.py:331-357). -/
def mkRanked (policy : RankingPolicy) (position : Nat) (e : EvaluationResult) :
    RankedCandidate :=
  let final_score := min 1 (e.score + diversityBoost policy e)
  { candidate_id := e.candidate_id
    name := e.candidate_name
    role := e.role
    final_score := final_score
    rationale := e.rationale
    tags := e.tags
    bias_flags := e.bias_flags
    rank_label := "Tier " ++ toString (1 + (position - 1) / 2)
    recommendation := "Rank " ++ toString position ++ ": " ++ e.candidate_name ++
      " (" ++ formatScore2 final_score ++ ")"
    profile_url := e.profile_url
    notes := if e.bias_flags.isEmpty then none else some "Manual review advised." }

/-- The `for position, evaluation in enumerate(sorted_evaluations, start=1)`
loop of `recommend`. -/
def rankLoop (policy : RankingPolicy) (position : Nat) :
    List EvaluationResult → List RankedCandidate
  | [] => []
  | e :: rest => mkRanked policy position e :: rankLoop policy (position + 1) rest

/-- `recommend(evaluations, policy)` (crew.py:323-358), as the pure list
transformation (the `_apply_policy` side effect is threaded in `CrewState`
operations below). -/
def recommendRanked (policy : RankingPolicy) (evaluations : List EvaluationResult) :
    List RankedCandidate :=
  rankLoop policy 1 (sortedEvaluations evaluations)

/-! ## Risk assessment (`RecruitmentCrew.assess_risk`, crew.py:518-523) -/

/-- `sum(len(evaluation.bias_flags) for evaluation in evaluations)`
(crew.py:520): the total bias-flag count of a slate. -/
def flagCount (evaluations : List EvaluationResult) : ℕ :=
  (evaluations.map (fun e => e.bias_flags.length)).sum

/-- `assess_risk(evaluations)`: flag density capped at 1, elevated above 0.3. -/
def assessRisk (evaluations : List EvaluationResult) : RiskAssessment :=
  let flag_count : ℕ := flagCount evaluations
  let score : ℚ := min 1 ((flag_count : ℚ) / (max 1 evaluations.length : ℕ))
  { score := score
    bias_flags := flag_count
    level := if score > 3 / 10 then "elevated" else "standard" }

/-! ## Outreach drafting (`WriterAgent.draft`, crew.py:375-404) -/

/-- `html.escape` with default `quote=True` on one character. -/
def htmlEscapeChar (c : Char) : String :=
  if c = Char.ofNat 38 then "&amp;"
  else if c = Char.ofNat 60 then "&lt;"
  else if c = Char.ofNat 62 then "&gt;"
  else if c = Char.ofNat 34 then "&quot;"
  else if c = Char.ofNat 39 then "&#x27;"
  else String.singleton c

/-- `WriterAgent._sanitize` (crew.py:375-377): `html.escape(value)`. -/
def sanitize (value : String) : String :=
  value.data.foldr (fun c acc => htmlEscapeChar c ++ acc) ""

/-- `WriterAgent.draft` (crew.py:379-404) without the random draft id. -/
def draftOutreach (campaign_id : String) (candidate : RankedCandidate)
    (template : OutreachTemplate) : OutreachDraft :=
  let safe_name := sanitize candidate.name
  let safe_role := sanitize candidate.role
  let safe_rationale := sanitize candidate.rationale.toLower
  let safe_cta := sanitize template.cta
  let safe_compliance := sanitize template.compliance_notes
  let safe_eu_statement := sanitize template.eu_ai_statement
  { campaign_id := campaign_id
    candidate_id := candidate.candidate_id
    message := "Hi " ++ safe_name ++ ",\n\n" ++
      "I saw your work as a " ++ safe_role ++ " and the way you " ++ safe_rationale ++ "\n" ++
      safe_compliance ++ " " ++ safe_eu_statement ++ "\n" ++
      safe_cta ++ ".\n\n" ++ "Best,\nRecruitment Assistant Crew"
    template := template }

/-! ## Orchestrator state machine (`RecruitmentCrew`, crew.py:407-536) -/

/-- Python exception values as observed by the caller: either an ordinary
exception with a message, or a `CrewError` raised by a trace boundary,
carrying the failing agent, the operation, and the original cause
(`raise CrewError(...) from exc`, crew.py:203). -/
inductive PyError where
  | base (msg : String)
  | crewError (agent : String) (operation : String) (cause : PyError)
deriving DecidableEq, Repr

/-- Warning-level log events (info-level trace events are not tracked). -/
inductive LogEvent where
  | warning (msg : String)
deriving DecidableEq, Repr

/-- `AgentTracer.trace` (crew.py:182-212): any exception escaping the body
is re-raised as `CrewError` for this agent and operation, chaining the
original cause; a successful body is passed through. -/
def traceExc (agent : String) (operation : String) (body : Except PyError α) :
    Except PyError α :=
  match body with
  | .error e => .error (.crewError agent operation e)
  | .ok a => .ok a

/-- Exogenous failure injection for a stage body: the pure stage
computations below are total, so the only run-time failures are external
(I/O, logging, interpreter); `some msg` makes the body raise. -/
def withFault (fault : Option String) (v : α) : Except PyError α :=
  match fault with
  | some msg => .error (.base msg)
  | none => .ok v

/-- Optional exogenous faults for each step of `run_campaign`. -/
structure StageFaults where
  research_fault : Option String := none
  evaluate_fault : Option String := none
  recommend_fault : Option String := none
  assess_fault : Option String := none
deriving DecidableEq, Repr

/-- The mutable state of a `RecruitmentCrew` instance: configuration plus
the snapshot fields mutated by `_record_state` and the policy references
mutated by `rerank`/`set_policy`. -/
structure CrewState where
  policy : RankingPolicy
  active_policy : RankingPolicy
  candidate_pool : List Profile
  bias_thresholds : List (String × ℚ)
  job_description : JobDescriptionModel
  latest_candidates : List RankedCandidate := []
  latest_evaluations : List EvaluationResult := []
  risk_history : List RiskAssessment := []
deriving DecidableEq, Repr

/-- The `jd_data` argument of the `RecruitmentCrew` constructor: `None`, a
dict (possibly missing the `title`/`content` keys), or an already-built
`JobDescriptionModel`. -/
inductive JDSource where
  | noData
  | dict (title : Option String) (content : Option String)
  | model (jd : JobDescriptionModel)
deriving DecidableEq, Repr

/-- `_normalize_job_description` (crew.py:440-451). -/
def normalizeJobDescription : JDSource → JobDescriptionModel
  | .model jd => jd
  | .dict t c => { title := t.getD "Talent Search", content := c.getD "No JD provided." }
  | .noData => { title := "Talent Search", content := "No JD provided." }

/-- The `RecruitmentCrew` constructor (crew.py:410-438): note the Python
truthiness fallbacks for the candidate pool and the threshold table, and
the final `set_policy` aligning the recommender's active policy. -/
def crewInit (jd_data : JDSource) (policy : Option RankingPolicy)
    (candidate_pool : Option (List Profile))
    (evaluator_bias_thresholds : Option (List (String × ℚ))) : CrewState :=
  let p := policy.getD {}
  { policy := p
    active_policy := p
    candidate_pool := pyOrList candidate_pool BASE_PROFILES
    bias_thresholds := pyOrList evaluator_bias_thresholds defaultBiasThresholds
    job_description := normalizeJobDescription jd_data }

/-- `_record_state` (crew.py:453-462): overwrite the snapshots, append to
the risk history. -/
def recordState (st : CrewState) (candidates : List RankedCandidate)
    (evaluations : List EvaluationResult) (risk : RiskAssessment) : CrewState :=
  { st with latest_candidates := candidates
            latest_evaluations := evaluations
            risk_history := st.risk_history ++ [risk] }

/-- `run_campaign` (crew.py:464-482): research, evaluate, recommend and
assess in sequence inside the crew trace boundary, recording state only
after all steps succeed.  Mirrors the source exception flow: each traced
agent wraps its own failure, the crew tracer re-wraps anything escaping the
body; `recommend` updates the recommender's active policy before its own
trace opens; `assess_risk` runs inside the crew trace only. -/
def runCampaign (faults : StageFaults) (st : CrewState)
    (job_description : Option JobDescriptionModel) (limit : Int) :
    Except PyError (List RankedCandidate × List EvaluationResult) × CrewState :=
  let payload := job_description.getD st.job_description
  let body : Except PyError (List RankedCandidate × List EvaluationResult) × CrewState :=
    match traceExc "researcher" "research"
        (withFault faults.research_fault (research st.candidate_pool payload limit)) with
    | .error e => (.error e, st)
    | .ok seeds =>
      match traceExc "evaluator" "evaluate"
          (withFault faults.evaluate_fault (evaluateSeeds st.bias_thresholds seeds)) with
      | .error e => (.error e, st)
      | .ok evaluations =>
        let st₁ := { st with active_policy := st.policy }
        match traceExc "recommender" "recommend"
            (withFault faults.recommend_fault (recommendRanked st.policy evaluations)) with
        | .error e => (.error e, st₁)
        | .ok ranked =>
          match withFault faults.assess_fault (assessRisk evaluations) with
          | .error e => (.error e, st₁)
          | .ok risk => (.ok (ranked, evaluations), recordState st₁ ranked evaluations risk)
  match body with
  | (.error e, st₂) => (.error (.crewError "crew" "run_campaign" e), st₂)
  | (.ok r, st₂) => (.ok r, st₂)

/-- `rerank` (crew.py:484-500): `evaluations or self.latest_evaluations`
selects the snapshot whenever the argument is `None` *or* empty; an empty
source soft-fails with a warning, otherwise policy is switched, candidates
re-ranked and state re-recorded. -/
def rerank (st : CrewState) (evaluations : Option (List EvaluationResult))
    (policy : Option RankingPolicy) :
    List RankedCandidate × CrewState × List LogEvent :=
  let source := pyOrList evaluations st.latest_evaluations
  if source.isEmpty then
    ([], st, [.warning "rerank_without_evaluations"])
  else
    let active_policy := policy.getD st.policy
    let st₁ := { st with policy := active_policy, active_policy := active_policy }
    let ranked := recommendRanked active_policy source
    let risk := assessRisk source
    (ranked, recordState st₁ ranked source risk, [])

/-- `generate_outreach` (crew.py:502-516): drafts for the supplied or
latest roster; an empty roster soft-fails with a warning.  The method
performs no assignment to any crew field. -/
def generateOutreach (st : CrewState) (campaign_id : String)
    (candidates : Option (List RankedCandidate)) (template : Option OutreachTemplate) :
    List OutreachDraft × CrewState × List LogEvent :=
  let roster := pyOrList candidates st.latest_candidates
  if roster.isEmpty then
    ([], st, [.warning "generate_outreach_no_candidates"])
  else
    let tpl := template.getD {}
    (roster.map (fun c => draftOutreach campaign_id c tpl), st, [])

/-! ## Helper lemmas -/

/-- The seed keeps the catalog profile's name. -/
lemma seedOfProfile_name (jd : JobDescriptionModel) (p : Profile) :
    (seedOfProfile jd p).name = p.name := rfl

/-- The seed's identifier is the stable hash of its name and the job title. -/
lemma seedOfProfile_id (jd : JobDescriptionModel) (p : Profile) :
    (seedOfProfile jd p).candidate_id = stableCandidateId p.name jd.title := rfl

/-- Every researched seed carries the stable id of its own name and the
job title. -/
lemma research_mem_id {pool : List Profile} {jd : JobDescriptionModel} {limit : Int}
    {s : CandidateSeed} (hs : s ∈ research pool jd limit) :
    s.candidate_id = stableCandidateId s.name jd.title := by
  obtain ⟨p, _, rfl⟩ := List.mem_map.mp hs
  rfl

/-- The sort performed by `recommend` is sorted under `scoreGE`. -/
lemma sorted_sortedEvaluations (l : List EvaluationResult) :
    (sortedEvaluations l).Sorted scoreGE :=
  List.sorted_insertionSort scoreGE l

/-- With a zero diversity bonus the boost vanishes for every candidate. -/
lemma diversityBoost_zero {policy : RankingPolicy} (hb : policy.diversity_bonus = 0)
    (e : EvaluationResult) : diversityBoost policy e = 0 := by
  unfold diversityBoost
  rw [hb]
  split <;> rfl

/-- With a nonnegative diversity bonus the boost is nonnegative. -/
lemma diversityBoost_nonneg {policy : RankingPolicy} (hb : 0 ≤ policy.diversity_bonus)
    (e : EvaluationResult) : 0 ≤ diversityBoost policy e := by
  unfold diversityBoost
  split
  · exact hb
  · exact le_refl 0

/-- The final score produced for one evaluation. -/
lemma mkRanked_final_score (policy : RankingPolicy) (n : Nat) (e : EvaluationResult) :
    (mkRanked policy n e).final_score = min 1 (e.score + diversityBoost policy e) := rfl

/-- The final scores emitted by the ranking loop, positionally. -/
lemma map_final_rankLoop (policy : RankingPolicy) :
    ∀ (n : Nat) (l : List EvaluationResult),
      (rankLoop policy n l).map RankedCandidate.final_score =
        l.map (fun e => min 1 (e.score + diversityBoost policy e))
  | _, [] => rfl
  | n, e :: rest => by
    simp [rankLoop, map_final_rankLoop policy (n + 1) rest, mkRanked_final_score]

/-- The ranking loop keeps the candidate ids in sorted-evaluation order. -/
lemma map_id_rankLoop (policy : RankingPolicy) :
    ∀ (n : Nat) (l : List EvaluationResult),
      (rankLoop policy n l).map RankedCandidate.candidate_id =
        l.map EvaluationResult.candidate_id
  | _, [] => rfl
  | n, e :: rest => by
    simp [rankLoop, map_id_rankLoop policy (n + 1) rest]
    rfl

/-- The ranking loop relates each evaluation to its ranked record
positionally. -/
lemma forall₂_rankLoop (policy : RankingPolicy)
    (P : EvaluationResult → RankedCandidate → Prop)
    (hP : ∀ pos e, P e (mkRanked policy pos e)) :
    ∀ (n : Nat) (l : List EvaluationResult), List.Forall₂ P l (rankLoop policy n l)
  | _, [] => .nil
  | n, e :: rest => .cons (hP n e) (forall₂_rankLoop policy P hP (n + 1) rest)

/-! ## Concrete inputs for counterexamples and witnesses -/

/-- An evaluation with raw score 0.86 and no boost-triggering tags. -/
def c1EvalA : EvaluationResult :=
  { candidate_id := "A", candidate_name := "A", role := "r", score := 86 / 100,
    rationale := "", bias_flags := [], comments := "", tags := [], profile_url := "" }

/-- An evaluation with raw score 0.85 carrying a boost-triggering tag. -/
def c1EvalB : EvaluationResult :=
  { candidate_id := "B", candidate_name := "B", role := "r", score := 85 / 100,
    rationale := "", bias_flags := [], comments := "", tags := ["Data Deficient"],
    profile_url := "" }

/-- C1 counterexample: under the default policy (diversity bonus 0.05), an
evaluation slate of raw scores (0.86 without boost tags, 0.85 with a boost
tag) yields output final scores `[0.86, 0.90]` — strictly increasing — so
the output of `recommend` is *not* non-increasing in `final_score`. -/
theorem recommend_final_score_not_monotone :
    (recommendRanked {} [c1EvalA, c1EvalB]).map RankedCandidate.final_score =
        [86 / 100, 90 / 100]
    ∧ ¬ ((90 : ℚ) / 100 ≤ 86 / 100) := by with_unfolding_all decide

/-- C1 (amended): `recommend` orders its output by *raw* evaluation score,
non-increasing, with ties kept in stable input order; the candidate ids of
the output follow the sorted-evaluation order, and `final_score` itself is
non-increasing whenever the policy's diversity bonus is zero. -/
theorem recommend_sorted_by_raw_score (policy : RankingPolicy)
    (evaluations : List EvaluationResult) :
    ((sortedEvaluations evaluations).map EvaluationResult.score).Sorted (· ≥ ·)
    ∧ (recommendRanked policy evaluations).map RankedCandidate.candidate_id =
        (sortedEvaluations evaluations).map EvaluationResult.candidate_id
    ∧ (policy.diversity_bonus = 0 →
        ((recommendRanked policy evaluations).map RankedCandidate.final_score).Sorted (· ≥ ·))
    ∧ (∀ a b, [a, b].Sublist evaluations → b.score ≤ a.score →
        [a, b].Sublist (sortedEvaluations evaluations)) := by
  refine ⟨?_, ?_, ?_, ?_⟩
  · exact (sorted_sortedEvaluations evaluations).map _ (fun a b hab => hab)
  · exact map_id_rankLoop policy 1 (sortedEvaluations evaluations)
  · intro hb
    show ((rankLoop policy 1 (sortedEvaluations evaluations)).map
      RankedCandidate.final_score).Sorted (· ≥ ·)
    rw [map_final_rankLoop]
    refine (sorted_sortedEvaluations evaluations).map _ (fun a b hab => ?_)
    rw [diversityBoost_zero hb, diversityBoost_zero hb, add_zero, add_zero]
    exact min_le_min le_rfl hab
  · intro a b hsub hge
    exact List.pair_sublist_insertionSort hge hsub

/-- Witness for C1 (amended) at a concrete slate and the zero-bonus policy. -/
theorem recommend_sorted_by_raw_score_witness :
    (({ diversity_bonus := 0 } : RankingPolicy).diversity_bonus = 0
      ∧ ((recommendRanked { diversity_bonus := 0 } [c1EvalA, c1EvalB]).map
          RankedCandidate.final_score).Sorted (· ≥ ·))
    ∧ ([c1EvalA, c1EvalB].Sublist [c1EvalA, c1EvalB]
      ∧ c1EvalB.score ≤ c1EvalA.score
      ∧ [c1EvalA, c1EvalB].Sublist (sortedEvaluations [c1EvalA, c1EvalB])) :=
  ⟨⟨rfl, (recommend_sorted_by_raw_score { diversity_bonus := 0 } [c1EvalA, c1EvalB]).2.2.1 rfl⟩,
   ⟨List.Sublist.refl _, by with_unfolding_all decide,
    (recommend_sorted_by_raw_score { diversity_bonus := 0 } [c1EvalA, c1EvalB]).2.2.2
      c1EvalA c1EvalB (List.Sublist.refl _) (by with_unfolding_all decide)⟩⟩

/-- An evaluation carrying two bias flags. -/
def c2Eval : EvaluationResult :=
  { candidate_id := "X", candidate_name := "X", role := "r", score := 1 / 2,
    rationale := "", bias_flags := ["Data Deficient", "Bias Warning"],
    comments := "", tags := [], profile_url := "" }

/-- C2 counterexample: one evaluation with two bias flags gives flag ratio
2/1 = 2, but `assess_risk` caps the score at 1.0 — the claimed equality
`score = flags / max(1, count)` fails. -/
theorem assess_risk_score_capped_at_one :
    (assessRisk [c2Eval]).score = 1
    ∧ ((flagCount [c2Eval] : ℚ) /
        ((max 1 ([c2Eval] : List EvaluationResult).length : ℕ) : ℚ)) = 2
    ∧ (assessRisk [c2Eval]).score ≠
        ((flagCount [c2Eval] : ℚ) /
          ((max 1 ([c2Eval] : List EvaluationResult).length : ℕ) : ℚ)) := by
  with_unfolding_all decide

/-- C2 (amended): `assess_risk` returns score `min(1, flags / max(1, count))`,
reports the total flag count, and is `"elevated"` iff the (uncapped) flag
ratio exceeds 0.3 — equivalently iff the capped score exceeds 0.3. -/
theorem assess_risk_formula_capped (evaluations : List EvaluationResult) :
    (assessRisk evaluations).score =
        min 1 ((flagCount evaluations : ℚ) / ((max 1 evaluations.length : ℕ) : ℚ))
    ∧ (assessRisk evaluations).bias_flags = flagCount evaluations
    ∧ ((assessRisk evaluations).level = "elevated" ↔
        3 / 10 < (flagCount evaluations : ℚ) / ((max 1 evaluations.length : ℕ) : ℚ)) := by
  refine ⟨rfl, rfl, ?_⟩
  set r : ℚ := (flagCount evaluations : ℚ) / ((max 1 evaluations.length : ℕ) : ℚ) with hr
  have hmin : (3 / 10 : ℚ) < min 1 r ↔ 3 / 10 < r :=
    ⟨fun h => h.trans_le (min_le_right _ _), fun h => lt_min (by norm_num) h⟩
  show (if min 1 r > 3 / 10 then "elevated" else "standard") = "elevated" ↔ 3 / 10 < r
  split_ifs with h
  · exact iff_of_true rfl (hmin.mp h)
  · exact iff_of_false (by decide) fun hcontra => h (hmin.mpr hcontra)

/-- A minimal concrete job description used in the research counterexample. -/
def c3JD : JobDescriptionModel := { title := "T", content := "C" }

/-- C3 counterexample: `research` with `limit = -1` over the default
catalog returns 3 seeds (Python's `pool[:-1]` drops only the last entry),
so a negative limit neither bounds the length by `limit` nor yields the
empty sequence. -/
theorem research_negative_limit_not_empty :
    (research BASE_PROFILES c3JD (-1)).length = 3
    ∧ research BASE_PROFILES c3JD (-1) ≠ []
    ∧ ((-1 : Int) ≤ 0)
    ∧ ¬ (((research BASE_PROFILES c3JD (-1)).length : Int) ≤ -1) := by decide

/-- C3 (amended): for `limit ≥ 0` the output of `research` has length at
most `limit` (and `limit = 0` gives the empty sequence); the output always
preserves candidate-source order (its names form a sublist of the pool's
names); a *negative* limit instead follows Python slice semantics and
drops the last `-limit` catalog entries. -/
theorem research_limit_semantics (pool : List Profile) (jd : JobDescriptionModel)
    (limit : Int) :
    (0 ≤ limit → (research pool jd limit).length ≤ limit.toNat)
    ∧ (limit = 0 → research pool jd limit = [])
    ∧ ((research pool jd limit).map CandidateSeed.name).Sublist (pool.map Profile.name)
    ∧ (limit < 0 →
        (research pool jd limit).length = pool.length - (-limit).toNat) := by
  refine ⟨?_, ?_, ?_, ?_⟩
  · intro hlim
    simp only [research, pySliceTo, if_pos hlim, List.length_map, List.length_take]
    exact min_le_left _ _
  · rintro rfl
    simp [research, pySliceTo]
  · have key : ∀ n : ℕ,
        (((pool.take n).map (seedOfProfile jd)).map CandidateSeed.name).Sublist
          (pool.map Profile.name) := by
      intro n
      rw [List.map_map]
      have hcomp : (CandidateSeed.name ∘ seedOfProfile jd) = Profile.name := rfl
      rw [hcomp, List.map_take]
      exact List.take_sublist n (pool.map Profile.name)
    unfold research pySliceTo
    split
    · exact key _
    · exact key _
  · intro hlim
    simp only [research, pySliceTo, if_neg (not_le.mpr hlim), List.length_map,
      List.length_take]
    omega

/-- Witness for C3 (amended) at the default catalog and `limit = 2`. -/
theorem research_limit_semantics_witness :
    ((0 : Int) ≤ 2 ∧ (research BASE_PROFILES c3JD 2).length ≤ (2 : Int).toNat)
    ∧ (research BASE_PROFILES c3JD 0 = [])
    ∧ ((-3 : Int) < 0
      ∧ (research BASE_PROFILES c3JD (-3)).length =
          BASE_PROFILES.length - (-(-3) : Int).toNat) :=
  ⟨⟨by decide, (research_limit_semantics BASE_PROFILES c3JD 2).1 (by decide)⟩,
   (research_limit_semantics BASE_PROFILES c3JD 0).2.1 rfl,
   ⟨by decide, (research_limit_semantics BASE_PROFILES c3JD (-3)).2.2.2 (by decide)⟩⟩

/-- An evaluation stored as a previous snapshot in the C4 counterexample. -/
def c4Eval : EvaluationResult :=
  { candidate_id := "S", candidate_name := "S", role := "r", score := 1 / 2,
    rationale := "", bias_flags := [], comments := "", tags := [], profile_url := "" }

/-- A crew state whose latest-evaluations snapshot is non-empty. -/
def c4State : CrewState :=
  { crewInit .noData none none none with latest_evaluations := [c4Eval] }

/-- C4 counterexample: with a non-empty stored snapshot, `rerank([])` does
*not* return the empty list — the Python `evaluations or
self.latest_evaluations` treats the explicit empty list as falsy and falls
back to the snapshot, producing one ranked candidate. -/
theorem rerank_empty_list_falls_back_to_snapshot :
    (rerank c4State (some []) none).1 ≠ []
    ∧ (rerank c4State (some []) none).1.length = 1
    ∧ c4State.latest_evaluations ≠ [] := by with_unfolding_all decide

/-- C4 (amended): an explicitly supplied empty evaluation list is falsy, so
`rerank` falls back to the stored snapshot; when that snapshot is empty (in
particular before any campaign has run) — and likewise when called with no
argument — `rerank` returns the empty list, leaves the state untouched,
logs a warning, and raises no exception (the embedding is total). -/
theorem rerank_soft_empty_when_no_snapshot (st : CrewState)
    (policy : Option RankingPolicy) (h : st.latest_evaluations = []) :
    rerank st (some []) policy = ([], st, [.warning "rerank_without_evaluations"])
    ∧ rerank st none policy = ([], st, [.warning "rerank_without_evaluations"]) := by
  constructor <;> simp [rerank, pyOrList, h]

/-- Witness for C4 (amended) on a freshly constructed crew. -/
theorem rerank_soft_empty_when_no_snapshot_witness :
    (crewInit .noData none none none).latest_evaluations = []
    ∧ rerank (crewInit .noData none none none) (some []) none =
        ([], crewInit .noData none none none, [.warning "rerank_without_evaluations"]) :=
  ⟨rfl, (rerank_soft_empty_when_no_snapshot (crewInit .noData none none none) none rfl).1⟩

/-- The `CrewError` produced by the first failing step of `run_campaign`
before the crew-level trace boundary re-wraps it: the three traced agents
wrap their own failures with their agent and operation names; a failure in
the untraced `assess_risk` call propagates bare. -/
def firstStageError (faults : StageFaults) : Option PyError :=
  match faults.research_fault with
  | some m => some (.crewError "researcher" "research" (.base m))
  | none =>
    match faults.evaluate_fault with
    | some m => some (.crewError "evaluator" "evaluate" (.base m))
    | none =>
      match faults.recommend_fault with
      | some m => some (.crewError "recommender" "recommend" (.base m))
      | none => faults.assess_fault.map .base

/-- C5: if any step of `run_campaign` fails, the call raises a single
`CrewError` from the crew trace boundary carrying the failing agent,
operation and original cause, and no partial state is committed:
`latest_candidates`, `latest_evaluations` and `risk_history` are exactly
as before the call. -/
theorem run_campaign_atomic_on_stage_failure (faults : StageFaults) (st : CrewState)
    (jd : Option JobDescriptionModel) (limit : Int) (e : PyError)
    (h : firstStageError faults = some e) :
    (runCampaign faults st jd limit).1 = .error (.crewError "crew" "run_campaign" e)
    ∧ (runCampaign faults st jd limit).2.latest_candidates = st.latest_candidates
    ∧ (runCampaign faults st jd limit).2.latest_evaluations = st.latest_evaluations
    ∧ (runCampaign faults st jd limit).2.risk_history = st.risk_history := by
  obtain ⟨rf, ef, cf, af⟩ := faults
  cases rf with
  | some m => cases h; exact ⟨rfl, rfl, rfl, rfl⟩
  | none =>
    cases ef with
    | some m => cases h; exact ⟨rfl, rfl, rfl, rfl⟩
    | none =>
      cases cf with
      | some m => cases h; exact ⟨rfl, rfl, rfl, rfl⟩
      | none =>
        cases af with
        | some m => cases h; exact ⟨rfl, rfl, rfl, rfl⟩
        | none => cases h

/-- Witness for C5 at a concrete research failure on a fresh crew. -/
theorem run_campaign_atomic_on_stage_failure_witness :
    firstStageError { research_fault := some "search backend down" } =
        some (.crewError "researcher" "research" (.base "search backend down"))
    ∧ ((runCampaign { research_fault := some "search backend down" }
          (crewInit .noData none none none) none 4).1 =
        .error (.crewError "crew" "run_campaign"
          (.crewError "researcher" "research" (.base "search backend down")))
      ∧ (runCampaign { research_fault := some "search backend down" }
          (crewInit .noData none none none) none 4).2.latest_candidates =
          (crewInit .noData none none none).latest_candidates
      ∧ (runCampaign { research_fault := some "search backend down" }
          (crewInit .noData none none none) none 4).2.latest_evaluations =
          (crewInit .noData none none none).latest_evaluations
      ∧ (runCampaign { research_fault := some "search backend down" }
          (crewInit .noData none none none) none 4).2.risk_history =
          (crewInit .noData none none none).risk_history) :=
  ⟨rfl, run_campaign_atomic_on_stage_failure
    { research_fault := some "search backend down" }
    (crewInit .noData none none none) none 4
    (.crewError "researcher" "research" (.base "search backend down")) rfl⟩

/-- An evaluation with a boost-triggering tag and raw score 0.5. -/
def c6Eval : EvaluationResult :=
  { candidate_id := "N", candidate_name := "N", role := "r", score := 1 / 2,
    rationale := "", bias_flags := [], comments := "", tags := ["Data Deficient"],
    profile_url := "" }

/-- A ranking policy with a negative diversity bonus (the field is an
unconstrained number). -/
def c6Policy : RankingPolicy := { diversity_bonus := -(1 / 10) }

/-- C6 counterexample: under a policy with diversity bonus −0.1 and an
evaluation with a boost-triggering tag and raw score 0.5, the ranked
final score is 0.4 < 0.5 — `final_score ≥ raw score` fails, so the
diversity bonus is not "adds only" over all policies. -/
theorem negative_diversity_bonus_lowers_final_score :
    (recommendRanked c6Policy [c6Eval]).map RankedCandidate.final_score = [2 / 5]
    ∧ c6Eval.score = 1 / 2
    ∧ ¬ ((1 : ℚ) / 2 ≤ 2 / 5) := by with_unfolding_all decide

/-- C6 (amended): for every policy whose diversity bonus is nonnegative,
each ranked candidate's final score is at least `min(1, raw score)` of its
corresponding evaluation — hence at least the raw score itself whenever
that raw score is ≤ 1 (as all evaluator-produced scores are). -/
theorem final_score_dominates_raw_of_nonneg_bonus (policy : RankingPolicy)
    (evaluations : List EvaluationResult) (hb : 0 ≤ policy.diversity_bonus) :
    List.Forall₂
      (fun e r => min 1 e.score ≤ r.final_score ∧ (e.score ≤ 1 → e.score ≤ r.final_score))
      (sortedEvaluations evaluations) (recommendRanked policy evaluations) := by
  refine forall₂_rankLoop policy _ (fun pos e => ?_) 1 (sortedEvaluations evaluations)
  rw [mkRanked_final_score]
  constructor
  · exact min_le_min le_rfl (le_add_of_nonneg_right (diversityBoost_nonneg hb e))
  · exact fun hs => le_min hs (le_add_of_nonneg_right (diversityBoost_nonneg hb e))

/-- Witness for C6 (amended) under the default policy on a one-element
slate. -/
theorem final_score_dominates_raw_of_nonneg_bonus_witness :
    (0 : ℚ) ≤ ({} : RankingPolicy).diversity_bonus
    ∧ List.Forall₂
        (fun e r => min 1 e.score ≤ r.final_score ∧ (e.score ≤ 1 → e.score ≤ r.final_score))
        (sortedEvaluations [c6Eval]) (recommendRanked {} [c6Eval]) :=
  ⟨by with_unfolding_all decide,
   final_score_dominates_raw_of_nonneg_bonus {} [c6Eval] (by with_unfolding_all decide)⟩

/-- A catalog profile used in the C7 witness. -/
def c7Profile : Profile :=
  { name := "Alex Dev", role := "Backend Engineer", score := 3 / 5,
    tags := [], data_sources := [], profile_url := "" }

/-- A job description used in the C7 witness. -/
def c7JD : JobDescriptionModel :=
  { title := "Senior Python Engineer", content := "Build scalable APIs" }

/-- C7: the candidate id is a deterministic function of the candidate name
and the job title alone — equal names and equal job titles give equal ids,
whatever else differs between the profiles, the job descriptions, the
candidate pools or the limits of two independent `research` calls. -/
theorem candidate_id_deterministic :
    (∀ (p₁ p₂ : Profile) (jd₁ jd₂ : JobDescriptionModel),
        p₁.name = p₂.name → jd₁.title = jd₂.title →
        (seedOfProfile jd₁ p₁).candidate_id = (seedOfProfile jd₂ p₂).candidate_id)
    ∧ (∀ (pool₁ pool₂ : List Profile) (jd₁ jd₂ : JobDescriptionModel)
        (limit₁ limit₂ : Int) (s₁ s₂ : CandidateSeed),
        jd₁.title = jd₂.title →
        s₁ ∈ research pool₁ jd₁ limit₁ → s₂ ∈ research pool₂ jd₂ limit₂ →
        s₁.name = s₂.name → s₁.candidate_id = s₂.candidate_id) := by
  constructor
  · intro p₁ p₂ jd₁ jd₂ hn ht
    rw [seedOfProfile_id, seedOfProfile_id, hn, ht]
  · intro pool₁ pool₂ jd₁ jd₂ limit₁ limit₂ s₁ s₂ ht h₁ h₂ hn
    rw [research_mem_id h₁, research_mem_id h₂, hn, ht]

/-- Witness for C7 at a concrete profile, job description and singleton
pool. -/
theorem candidate_id_deterministic_witness :
    (c7Profile.name = c7Profile.name ∧ c7JD.title = c7JD.title
      ∧ (seedOfProfile c7JD c7Profile).candidate_id =
          (seedOfProfile c7JD c7Profile).candidate_id)
    ∧ (seedOfProfile c7JD c7Profile ∈ research [c7Profile] c7JD 1
      ∧ (seedOfProfile c7JD c7Profile).candidate_id =
          (seedOfProfile c7JD c7Profile).candidate_id) :=
  ⟨⟨rfl, rfl, candidate_id_deterministic.1 c7Profile c7Profile c7JD c7JD rfl rfl⟩,
   ⟨List.mem_singleton.mpr rfl,
    candidate_id_deterministic.2 [c7Profile] [c7Profile] c7JD c7JD 1 1
      (seedOfProfile c7JD c7Profile) (seedOfProfile c7JD c7Profile) rfl
      (List.mem_singleton.mpr rfl) (List.mem_singleton.mpr rfl) rfl⟩⟩

/-- C8: on the empty evaluation list `assess_risk` returns score 0, level
`"standard"` and zero flags; the guarded denominator `max(1, 0)` equals 1,
so no division by zero can occur. -/
theorem assess_risk_empty_is_standard_zero :
    assessRisk [] = { score := 0, bias_flags := 0, level := "standard" }
    ∧ max 1 (List.length ([] : List EvaluationResult)) = 1 := by
  with_unfolding_all decide

/-- C9: a crew constructed with no job-description data, or with a dict
missing the title/content keys, binds the default job description
("Talent Search" / "No JD provided."), and `run_campaign` invoked without
a job-description argument runs the full pipeline against that bound
default and succeeds. -/
theorem crew_defaults_bind_job_description :
    (crewInit .noData none none none).job_description =
        { title := "Talent Search", content := "No JD provided." }
    ∧ (crewInit (.dict none none) none none none).job_description =
        { title := "Talent Search", content := "No JD provided." }
    ∧ ∀ limit : Int,
        (runCampaign {} (crewInit .noData none none none) none limit).1 =
          .ok
            (recommendRanked {}
              (evaluateSeeds defaultBiasThresholds
                (research BASE_PROFILES
                  { title := "Talent Search", content := "No JD provided." } limit)),
             evaluateSeeds defaultBiasThresholds
               (research BASE_PROFILES
                 { title := "Talent Search", content := "No JD provided." } limit)) :=
  ⟨rfl, rfl, fun _ => rfl⟩

/-- C10: `generate_outreach` never mutates orchestrator state — for every
input, including the soft-empty case with no candidates, the state
returned (so in particular `latest_candidates`, `latest_evaluations` and
`risk_history`) is exactly the input state. -/
theorem generate_outreach_preserves_state (st : CrewState) (campaign_id : String)
    (candidates : Option (List RankedCandidate)) (template : Option OutreachTemplate) :
    (generateOutreach st campaign_id candidates template).2.1 = st := by
  by_cases h : (pyOrList candidates st.latest_candidates).isEmpty <;>
    simp [generateOutreach, h]

end HRCrew
